import Mathlib

/-!
Verification of the BookStack relational data-access layer.

The definitions below are a shallow embedding of `src/source/database.py`
(the `db_connection` decorator, the `create_table_*` DDL and the `insert_*`
DML run through sqlite3) and of the read helpers in
`src/tests/base_db_testcase.py` (`get_table_column_names`,
`get_valid_record_id`, `get_database_table_names`, `validate_cursor`,
`validate_table_name`) together with the table dictionary in
`src/tests/db_test_config.py`.

SQLite semantics captured here: a column list with NOT NULL and UNIQUE
markers (single columns and composites), an INTEGER PRIMARY KEY id column
assigned as max(rowid)+1, statement-level atomicity of a single INSERT,
and per-connection foreign-key enforcement that is OFF unless a
connection executes PRAGMA foreign_keys = ON.
-/

namespace BookStack

/-- A SQLite value as supplied through the python bindings: None, an
integer, or a string. -/
inductive Val where
  | null
  | int (i : Int)
  | text (s : String)
deriving DecidableEq

/-- A non-id column of a table: its name, whether it is declared NOT NULL,
and the referenced table when it carries a FOREIGN KEY (... ) REFERENCES
clause (the reference always targets the ID column). -/
structure Column where
  name : String
  notNull : Bool
  fk : Option String
deriving DecidableEq

/-- A table declaration: table name, the non-id columns in declaration
order (every DDL in database.py declares ID INTEGER PRIMARY KEY first,
so the id column is kept implicit), and the UNIQUE groups (a singleton
group for a column-level UNIQUE, a longer group for a composite). -/
structure TableSchema where
  name : String
  cols : List Column
  uniques : List (List String)
deriving DecidableEq

/-- A materialized table: its declaration plus the stored rows, each row
being the assigned id together with the non-id values in column order. -/
structure Table where
  schema : TableSchema
  rows : List (Nat × List Val)
deriving DecidableEq

/-- The backing store: the user tables in creation order. -/
abbrev DB := List Table

/-- Look a table up by name, as sqlite resolves a table name in a
statement. -/
def getTable (db : DB) (n : String) : Option Table :=
  db.find? (fun t => t.schema.name == n)

/-- Replace the table named `n` by `tb`, leaving every other table
untouched. -/
def updateTable (db : DB) (n : String) (tb : Table) : DB :=
  db.map (fun t => if t.schema.name == n then tb else t)

/-- SELECT * FROM `tname`: the stored rows of the table (empty when the
table does not exist). -/
def selectAll (db : DB) (tname : String) : List (Nat × List Val) :=
  match getTable db tname with
  | some t => t.rows
  | none => []

/-- Largest id among a list of ids (0 for the empty table). -/
def maxId (ids : List Nat) : Nat := ids.foldl max 0

/-- The rowid sqlite assigns to the next inserted row of a table whose ID
is INTEGER PRIMARY KEY without AUTOINCREMENT: max(rowid) + 1. -/
def newId (t : Table) : Nat := maxId (t.rows.map (·.1)) + 1

/-- The id the store will assign on the next successful insert into
`tname`. -/
def assignedId (db : DB) (tname : String) : Nat :=
  maxId ((selectAll db tname).map (·.1)) + 1

/-- The value bound to column `cname` in a positional value list. -/
def valAt (cols : List Column) (vals : List Val) (cname : String) : Val :=
  match cols, vals with
  | c :: cs, v :: vs => if c.name == cname then v else valAt cs vs cname
  | _, _ => .null

/-- First column whose NOT NULL constraint the supplied values violate,
in declaration order. -/
def findNotNull (cols : List Column) (vals : List Val) : Option String :=
  match cols, vals with
  | c :: cs, v :: vs =>
      if c.notNull && v == Val.null then some c.name
      else findNotNull cs vs
  | _, _ => none

/-- Does the candidate row collide with a stored row on the UNIQUE group
`g`? Following sqlite, a NULL in a unique column never collides. -/
def groupConflict (cols : List Column) (rows : List (Nat × List Val))
    (vals : List Val) (g : List String) : Bool :=
  (g.all fun c => valAt cols vals c != Val.null) &&
  (rows.any fun r => g.all fun c => valAt cols r.2 c == valAt cols vals c)

/-- First UNIQUE group (column or composite) the candidate row collides
on. -/
def uniqueConflict (t : Table) (vals : List Val) : Option (List String) :=
  t.schema.uniques.find? (groupConflict t.schema.cols t.rows vals)

/-- Is the value admissible for the FOREIGN KEY declaration of its column?
NULL always satisfies an FK; otherwise the value must be the id of a row
of the referenced table. -/
def fkColOk (db : DB) (c : Column) (v : Val) : Bool :=
  match c.fk with
  | none => true
  | some ref =>
      v == Val.null ||
      (match getTable db ref with
       | some rt => rt.rows.any fun r => Val.int (Int.ofNat r.1) == v
       | none => false)

/-- Do all values of the row satisfy the declared FOREIGN KEY
constraints? -/
def fkRowOk (db : DB) (cols : List Column) (vals : List Val) : Bool :=
  match cols, vals with
  | c :: cs, v :: vs => fkColOk db c v && fkRowOk db cs vs
  | _, _ => true

/-- The sqlite3 error classes the layer can surface, as kinds
(all are subclasses of sqlite3.Error, so the decorator treats them
uniformly): OperationalError for a CREATE of an existing table or an
INSERT into a missing table, ProgrammingError for a parameter-count
mismatch, IntegrityError for NOT NULL / UNIQUE / FOREIGN KEY
violations. -/
inductive DBError where
  | schemaConflict (t : String)
  | noSuchTable (t : String)
  | arityMismatch (t : String)
  | notNullViolation (t c : String)
  | uniqueViolation (t : String) (g : List String)
  | fkViolation (t : String)
deriving DecidableEq

/-- Recognize an IntegrityError whose text is
"UNIQUE constraint failed". -/
def isUniqueViolation : Except DBError Unit → Bool
  | .error (.uniqueViolation _ _) => true
  | _ => false

/-- cursor.execute of a single parameterized INSERT, as each `insert_*`
function issues it: bind the supplied values positionally to the non-id
columns, evaluate NOT NULL, UNIQUE and (only when the connection has
enabled them) FOREIGN KEY constraints, and either append exactly one row
with the next rowid or fail leaving the statement without effect. -/
def execInsert (fkOn : Bool) (db : DB) (tname : String) (vals : List Val) :
    Except DBError DB :=
  match getTable db tname with
  | none => .error (.noSuchTable tname)
  | some t =>
    if vals.length = t.schema.cols.length then
      match findNotNull t.schema.cols vals with
      | some c => .error (.notNullViolation tname c)
      | none =>
        match uniqueConflict t vals with
        | some g => .error (.uniqueViolation tname g)
        | none =>
          if fkOn && !fkRowOk db t.schema.cols vals then
            .error (.fkViolation tname)
          else
            .ok (updateTable db tname
              ⟨t.schema, t.rows ++ [(newId t, vals)]⟩)
    else .error (.arityMismatch tname)

/-- cursor.execute of a CREATE TABLE statement without IF NOT EXISTS:
OperationalError when the table already exists, otherwise the new empty
table is added. -/
def execCreateTable (db : DB) (ts : TableSchema) : Except DBError DB :=
  if (getTable db ts.name).isSome then .error (.schemaConflict ts.name)
  else .ok (db ++ [⟨ts, []⟩])

deriving instance DecidableEq for Except

/-- Outcome of one decorated call: the persistent store after the call
together with the returned success or the propagated sqlite3.Error. -/
structure CallResult where
  db : DB
  result : Except DBError Unit
deriving DecidableEq

/-- The db_connection decorator of database.py: sqlite3.connect opens a
fresh connection (on which foreign-key enforcement is at its sqlite
default, OFF, since the decorator issues no PRAGMA), runs the wrapped
statement, and on sqlite3.Error rolls the transaction back and re-raises;
the finally block commits (a no-op after a rollback) and closes the
connection. The persisted store is therefore the statement result on
success and the pre-call store on failure. -/
def db_connection (stmt : DB → Except DBError DB) (db : DB) : CallResult :=
  match stmt db with
  | .ok db1 => ⟨db1, .ok ()⟩
  | .error e => ⟨db, .error e⟩

/-- One decorated insert call. The connection it runs on is freshly
opened by db_connection, so fkOn is false: database.py never executes
PRAGMA foreign_keys = ON. -/
def runInsert (db : DB) (tname : String) (vals : List Val) : CallResult :=
  db_connection (fun d => execInsert false d tname vals) db

/-- One decorated create-table call. -/
def runCreate (db : DB) (ts : TableSchema) : CallResult :=
  db_connection (fun d => execCreateTable d ts) db

/-- CREATE TABLE Title (ID INTEGER PRIMARY KEY, Name TEXT NOT NULL). -/
def titleSchema : TableSchema :=
  ⟨"Title", [⟨"Name", true, none⟩], []⟩

/-- CREATE TABLE Genre (ID INTEGER PRIMARY KEY,
Name TEXT UNIQUE NOT NULL). -/
def genreSchema : TableSchema :=
  ⟨"Genre", [⟨"Name", true, none⟩], [["Name"]]⟩

/-- CREATE TABLE Format (ID INTEGER PRIMARY KEY,
Name TEXT UNIQUE NOT NULL). -/
def formatSchema : TableSchema :=
  ⟨"Format", [⟨"Name", true, none⟩], [["Name"]]⟩

/-- CREATE TABLE Publisher (ID INTEGER PRIMARY KEY,
Name TEXT UNIQUE NOT NULL). -/
def publisherSchema : TableSchema :=
  ⟨"Publisher", [⟨"Name", true, none⟩], [["Name"]]⟩

/-- CREATE TABLE Condition (ID INTEGER PRIMARY KEY,
Name TEXT UNIQUE NOT NULL, Description TEXT UNIQUE NOT NULL). -/
def conditionSchema : TableSchema :=
  ⟨"Condition", [⟨"Name", true, none⟩, ⟨"Description", true, none⟩],
    [["Name"], ["Description"]]⟩

/-- CREATE TABLE Author (ID INTEGER PRIMARY KEY, Prefix TEXT NULLABLE,
First TEXT NOT NULL, Middle TEXT NULLABLE, Last TEXT NULLABLE,
Suffix TEXT NULLABLE). The word NULLABLE is not a sqlite constraint
keyword: sqlite folds it into the declared type, so those columns are
plain nullable TEXT columns. -/
def authorSchema : TableSchema :=
  ⟨"Author",
    [⟨"Prefix", false, none⟩, ⟨"First", true, none⟩,
     ⟨"Middle", false, none⟩, ⟨"Last", false, none⟩,
     ⟨"Suffix", false, none⟩], []⟩

def create_table_title (db : DB) : CallResult := runCreate db titleSchema

def create_table_genre (db : DB) : CallResult := runCreate db genreSchema

def create_table_format (db : DB) : CallResult := runCreate db formatSchema

def create_table_publisher (db : DB) : CallResult :=
  runCreate db publisherSchema

def create_table_condition (db : DB) : CallResult :=
  runCreate db conditionSchema

def create_table_author (db : DB) : CallResult := runCreate db authorSchema

/-- INSERT INTO Title (Name) VALUES (?). -/
def insert_title (db : DB) (vals : List Val) : CallResult :=
  runInsert db "Title" vals

/-- INSERT INTO Genre (Name) VALUES (?). -/
def insert_genre (db : DB) (vals : List Val) : CallResult :=
  runInsert db "Genre" vals

/-- INSERT INTO Format (Name) VALUES (?). -/
def insert_format (db : DB) (vals : List Val) : CallResult :=
  runInsert db "Format" vals

/-- INSERT INTO Publisher (Name) VALUES (?). -/
def insert_publisher (db : DB) (vals : List Val) : CallResult :=
  runInsert db "Publisher" vals

/-- INSERT INTO Condition (Name, Description) VALUES (?, ?). -/
def insert_condition (db : DB) (vals : List Val) : CallResult :=
  runInsert db "Condition" vals

/-- INSERT INTO Author (Prefix, First, Middle, Last, Suffix)
VALUES (?, ?, ?, ?, ?). -/
def insert_author (db : DB) (vals : List Val) : CallResult :=
  runInsert db "Author" vals

/-- Modelled from the spec: create_table_location is referenced by the
test dictionaries (db_test_config.DB_DICT_CREATE_TABLE_FUNCS) but absent
from src/source/database.py. Section 3 declares Location as
id, name (unique), description? with no self-referential column. -/
def locationSchema : TableSchema :=
  ⟨"Location", [⟨"Name", true, none⟩, ⟨"Description", false, none⟩],
    [["Name"]]⟩

/-- Modelled from the spec: create_table_titleauthor is referenced by the
test dictionaries but absent from src/source/database.py. Section 3
declares TitleAuthor as id, title_id (FK to Title, NOT NULL),
author_id (FK to Author, NOT NULL), with (title_id, author_id) unique. -/
def titleauthorSchema : TableSchema :=
  ⟨"TitleAuthor",
    [⟨"TitleID", true, some "Title"⟩, ⟨"AuthorID", true, some "Author"⟩],
    [["TitleID", "AuthorID"]]⟩

/-- Modelled from the spec: create_table_work is absent from
src/source/database.py. Section 3 declares Work as id,
title_author_id (FK to TitleAuthor, NOT NULL), genre_id (FK to Genre,
nullable), with (title_author_id, genre_id) unique. -/
def workSchema : TableSchema :=
  ⟨"Work",
    [⟨"TitleAuthorID", true, some "TitleAuthor"⟩,
     ⟨"GenreID", false, some "Genre"⟩],
    [["TitleAuthorID", "GenreID"]]⟩

/-- Modelled from the spec: create_table_publication is absent from
src/source/database.py. Section 3 declares Publication as id,
work_id (FK to Work, NOT NULL), format_id (FK to Format, NOT NULL),
publisher_id (FK to Publisher, nullable), isbn (unique, nullable), with
(work_id, format_id, publisher_id) unique. -/
def publicationSchema : TableSchema :=
  ⟨"Publication",
    [⟨"WorkID", true, some "Work"⟩, ⟨"FormatID", true, some "Format"⟩,
     ⟨"PublisherID", false, some "Publisher"⟩, ⟨"ISBN", false, none⟩],
    [["WorkID", "FormatID", "PublisherID"], ["ISBN"]]⟩

/-- Modelled from the spec: create_table_book is absent from
src/source/database.py. Section 3 declares Book as id,
publication_id (FK to Publication, NOT NULL), condition_id (FK to
Condition, nullable), location_id (FK to Location, nullable). -/
def bookSchema : TableSchema :=
  ⟨"Book",
    [⟨"PublicationID", true, some "Publication"⟩,
     ⟨"ConditionID", false, some "Condition"⟩,
     ⟨"LocationID", false, some "Location"⟩], []⟩

/-- Modelled from the spec: the create operation for the Location
table. -/
def create_table_location (db : DB) : CallResult :=
  runCreate db locationSchema

/-- Modelled from the spec: the create operation for the TitleAuthor
table. -/
def create_table_titleauthor (db : DB) : CallResult :=
  runCreate db titleauthorSchema

/-- Modelled from the spec: the create operation for the Work table. -/
def create_table_work (db : DB) : CallResult := runCreate db workSchema

/-- Modelled from the spec: the create operation for the Publication
table. -/
def create_table_publication (db : DB) : CallResult :=
  runCreate db publicationSchema

/-- Modelled from the spec: the create operation for the Book table. -/
def create_table_book (db : DB) : CallResult := runCreate db bookSchema

/-- Modelled from the spec: insert_titleauthor is referenced by the test
dictionaries but absent from src/source/database.py. Like every insert
operation it goes through the db_connection decorator of
src/source/database.py, which opens its own fresh connection. -/
def insert_titleauthor (db : DB) (vals : List Val) : CallResult :=
  runInsert db "TitleAuthor" vals

/-- The error kinds of BaseDatabaseModuleTestCase:
NoDatabaseConnectionError (an operation needing the cursor ran without
one) and DatabaseTableError (a table name failed validation). -/
inductive TCError where
  | noDatabaseConnection
  | databaseTable
deriving DecidableEq

/-- DB_DICT_SCHEMA of src/tests/db_test_config.py, verbatim: the required
table and column structure the test layer validates names against. (Its
Genre and Location entries carry the extra GenreID and LocationID columns
of earlier schema iterations.) -/
def dbDictSchema : List (String × List String) :=
  [("Title", ["ID", "Name"]),
   ("Author", ["ID", "Prefix", "First", "Middle", "Last", "Suffix"]),
   ("Genre", ["ID", "GenreID", "Name"]),
   ("TitleAuthor", ["ID", "TitleID", "AuthorID"]),
   ("Work", ["ID", "TitleAuthorID", "GenreID"]),
   ("Format", ["ID", "Name"]),
   ("Publisher", ["ID", "Name"]),
   ("Publication", ["ID", "WorkID", "FormatID", "PublisherID", "ISBN"]),
   ("Condition", ["ID", "Name", "Description"]),
   ("Location", ["ID", "LocationID", "Name", "Description"]),
   ("Book", ["ID", "PublicationID", "ConditionID", "LocationID"])]

/-- The recognized entity names: the keys of DB_DICT_SCHEMA, in order. -/
def dbDictSchemaKeys : List String := dbDictSchema.map (·.1)

/-- validate_cursor: raises NoDatabaseConnectionError when cls.cursor is
None. The boolean argument models whether a cursor object exists. -/
def validate_cursor (hasCursor : Bool) : Except TCError Unit :=
  if hasCursor then .ok () else .error .noDatabaseConnection

/-- validate_table_name: raises DatabaseTableError when the name is not
in the given iterable. -/
def validate_table_name (tname : String) (names : List String) :
    Except TCError Unit :=
  if tname ∈ names then .ok () else .error .databaseTable

/-- get_database_table_names: validates the cursor, then reads the names
of the user tables from sqlite_master. -/
def get_database_table_names (hasCursor : Bool) (db : DB) :
    Except TCError (List String) :=
  match validate_cursor hasCursor with
  | .error e => .error e
  | .ok _ => .ok (db.map (fun t => t.schema.name))

/-- get_table_column_names: validates the table name against
DB_DICT_SCHEMA first, then lists the existing tables (which needs the
cursor), returns [] when the table has not been created, and otherwise
reads the column names, ID first, via PRAGMA table_info. -/
def get_table_column_names (hasCursor : Bool) (db : DB) (tname : String) :
    Except TCError (List String) :=
  match validate_table_name tname dbDictSchemaKeys with
  | .error e => .error e
  | .ok _ =>
    match get_database_table_names hasCursor db with
    | .error e => .error e
    | .ok names =>
      if tname ∈ names then
        match getTable db tname with
        | some t => .ok ("ID" :: t.schema.cols.map (·.name))
        | none => .ok []
      else .ok []

/-- get_valid_record_id: validates the cursor, validates the name against
DB_DICT_SCHEMA, validates it against the tables actually present, then
runs SELECT ID FROM table ORDER BY ID. -/
def get_valid_record_id (hasCursor : Bool) (db : DB) (tname : String) :
    Except TCError (List Nat) :=
  match validate_cursor hasCursor with
  | .error e => .error e
  | .ok _ =>
    match validate_table_name tname dbDictSchemaKeys with
    | .error e => .error e
    | .ok _ =>
      match get_database_table_names hasCursor db with
      | .error e => .error e
      | .ok names =>
        match validate_table_name tname names with
        | .error e => .error e
        | .ok _ =>
          .ok (List.insertionSort (· ≤ ·)
            ((selectAll db tname).map (·.1)))

/-- The column lists of spec section 3, one per entity, id column first,
rendered in the PascalCase naming the tables use. This definition follows
the words of the spec, for comparison with the columns the code
retrieves. -/
def specSchema : List (String × List String) :=
  [("Title", ["ID", "Name"]),
   ("Author", ["ID", "Prefix", "First", "Middle", "Last", "Suffix"]),
   ("Genre", ["ID", "Name"]),
   ("TitleAuthor", ["ID", "TitleID", "AuthorID"]),
   ("Work", ["ID", "TitleAuthorID", "GenreID"]),
   ("Format", ["ID", "Name"]),
   ("Publisher", ["ID", "Name"]),
   ("Publication", ["ID", "WorkID", "FormatID", "PublisherID", "ISBN"]),
   ("Condition", ["ID", "Name", "Description"]),
   ("Location", ["ID", "Name", "Description"]),
   ("Book", ["ID", "PublicationID", "ConditionID", "LocationID"])]

/-- The entities of the data model, spec section 3. -/
def entityNames : List String := specSchema.map (·.1)

/-- The column list spec section 3 declares for an entity. -/
def specColumns (e : String) : List String :=
  ((specSchema.find? (fun p => p.1 == e)).map (·.2)).getD []

/-- Create every table of a list of declarations in order, as the
aggregate schema-creation operation of spec section 4.1 sequences the
per-entity creates. -/
def createAll (db : DB) (l : List TableSchema) : DB :=
  l.foldl (fun d ts => (runCreate d ts).db) db

/-- The store after full schema creation: all eleven tables created in
dependency order (tables without foreign keys first). -/
def fullSchemaDb : DB :=
  createAll []
    [titleSchema, authorSchema, genreSchema, formatSchema,
     publisherSchema, conditionSchema, locationSchema,
     titleauthorSchema, workSchema, publicationSchema, bookSchema]

/-- A sequence of decorated insert calls against one table; `some` of the
final store when every call succeeds, `none` as soon as one raises. -/
def insertAll (db : DB) (tname : String) (L : List (List Val)) :
    Option DB :=
  match L with
  | [] => some db
  | vs :: rest =>
    match runInsert db tname vs with
    | ⟨db1, .ok _⟩ => insertAll db1 tname rest
    | ⟨_, .error _⟩ => none

/-- A store holding just a freshly created Genre table. -/
def genreDb : DB := (create_table_genre []).db

/-- A store holding just a freshly created Author table. -/
def authorDb : DB := (create_table_author []).db

/-- The demonstration store for foreign-key enforcement: Title, Author
and TitleAuthor created, one Author row inserted (id 1), Title left
empty, so no Title row with id 999 exists. -/
def fkDemoDb : DB :=
  (insert_author
    ((create_table_titleauthor
      ((create_table_author ((create_table_title []).db)).db)).db)
    [Val.null, Val.text "Frank", Val.null, Val.text "Herbert",
     Val.null]).db

/-- A store holding a Genre table and a Title table, both empty. -/
def genreTitleDb : DB := (create_table_title genreDb).db

theorem foldl_max_init_le (l : List Nat) (b : Nat) : b ≤ l.foldl max b := by
  induction l generalizing b with
  | nil => exact Nat.le_refl b
  | cons x xs ih =>
    exact Nat.le_trans (Nat.le_max_left b x) (ih (max b x))

theorem mem_le_foldl_max (l : List Nat) (b a : Nat) (h : a ∈ l) :
    a ≤ l.foldl max b := by
  induction l generalizing b with
  | nil => cases h
  | cons x xs ih =>
    rcases List.mem_cons.mp h with rfl | h2
    · exact Nat.le_trans (Nat.le_max_right b a)
        (foldl_max_init_le xs (max b a))
    · exact ih (max b x) h2

theorem lt_newId_of_mem (t : Table) (p : Nat × List Val) (h : p ∈ t.rows) :
    p.1 < newId t :=
  Nat.lt_succ_of_le
    (mem_le_foldl_max _ 0 p.1 (List.mem_map_of_mem (·.1) h))

theorem maxId_append (ids : List Nat) (a : Nat) :
    maxId (ids ++ [a]) = max (maxId ids) a := by
  simp [maxId, List.foldl_append]

theorem maxId_range' (n : Nat) : maxId (List.range' 1 n) = n := by
  induction n with
  | zero => rfl
  | succ m ih =>
    rw [List.range'_concat, maxId_append, ih]
    omega

theorem getTable_some_name (db : DB) (n : String) (t : Table)
    (h : getTable db n = some t) : t.schema.name = n := by
  have hp := List.find?_some h
  exact eq_of_beq hp

theorem getTable_cons (hd : Table) (ds : DB) (n : String) :
    getTable (hd :: ds) n =
      if hd.schema.name == n then some hd else getTable ds n := by
  cases hb : hd.schema.name == n with
  | true => simp [getTable, List.find?, hb]
  | false => simp [getTable, List.find?, hb]

theorem updateTable_cons (hd : Table) (ds : DB) (n : String) (tb : Table) :
    updateTable (hd :: ds) n tb =
      (if hd.schema.name == n then tb else hd) :: updateTable ds n tb := by
  simp [updateTable]

theorem getTable_updateTable_self (db : DB) (n : String) (tb : Table)
    (hname : tb.schema.name = n) (h : (getTable db n).isSome = true) :
    getTable (updateTable db n tb) n = some tb := by
  induction db with
  | nil => simp [getTable] at h
  | cons hd ds ih =>
    rw [getTable_cons] at h
    rw [updateTable_cons]
    cases hbeq : hd.schema.name == n with
    | true => simp [getTable_cons, hname]
    | false =>
      rw [hbeq] at h
      simp only [Bool.false_eq_true, if_false] at h ⊢
      rw [getTable_cons, if_neg (by simp [hbeq])]
      exact ih h

theorem getTable_updateTable_ne (db : DB) (n o : String) (tb : Table)
    (hname : tb.schema.name = n) (hne : o ≠ n) :
    getTable (updateTable db n tb) o = getTable db o := by
  induction db with
  | nil => rfl
  | cons hd ds ih =>
    rw [updateTable_cons]
    cases hbeq : hd.schema.name == n with
    | true =>
      have hdn : hd.schema.name = n := eq_of_beq hbeq
      simp only [if_pos rfl]
      rw [getTable_cons, getTable_cons,
        if_neg (by simp [hname]; exact fun q => hne q.symm),
        if_neg (by simp [hdn]; exact fun q => hne q.symm)]
      exact ih
    | false =>
      simp only [Bool.false_eq_true, if_false]
      rw [getTable_cons, getTable_cons]
      cases ho : hd.schema.name == o with
      | true => simp
      | false => simpa using ih

theorem getTable_append_singleton (db : DB) (tb : Table) (n : String)
    (h : getTable db n = none) :
    getTable (db ++ [tb]) n = getTable [tb] n := by
  induction db with
  | nil => rfl
  | cons hd ds ih =>
    rw [getTable_cons] at h
    cases hb : hd.schema.name == n with
    | true =>
      rw [if_pos hb] at h
      cases h
    | false =>
      rw [if_neg (by simp [hb])] at h
      rw [List.cons_append, getTable_cons, if_neg (by simp [hb])]
      exact ih h

theorem execInsert_ok_of_checks (db : DB) (tname : String)
    (vals : List Val) (t : Table)
    (hgt : getTable db tname = some t)
    (hl : vals.length = t.schema.cols.length)
    (hnn : findNotNull t.schema.cols vals = none)
    (huc : uniqueConflict t vals = none) :
    execInsert false db tname vals =
      .ok (updateTable db tname ⟨t.schema, t.rows ++ [(newId t, vals)]⟩) := by
  simp [execInsert, hgt, hl, hnn, huc]

theorem execInsert_unique_err (db : DB) (tname : String)
    (vals : List Val) (t : Table) (g : List String)
    (hgt : getTable db tname = some t)
    (hl : vals.length = t.schema.cols.length)
    (hnn : findNotNull t.schema.cols vals = none)
    (huc : uniqueConflict t vals = some g) :
    execInsert false db tname vals = .error (.uniqueViolation tname g) := by
  simp [execInsert, hgt, hl, hnn, huc]

theorem execInsert_cases (db : DB) (tname : String) (vals : List Val) :
    (∃ t, getTable db tname = some t ∧
       vals.length = t.schema.cols.length ∧
       findNotNull t.schema.cols vals = none ∧
       uniqueConflict t vals = none ∧
       execInsert false db tname vals =
         .ok (updateTable db tname
           ⟨t.schema, t.rows ++ [(newId t, vals)]⟩))
  ∨ (∃ e, execInsert false db tname vals = .error e) := by
  cases hgt : getTable db tname with
  | none =>
    exact .inr ⟨.noSuchTable tname, by simp [execInsert, hgt]⟩
  | some t =>
    by_cases hl : vals.length = t.schema.cols.length
    · cases hnn : findNotNull t.schema.cols vals with
      | some c =>
        exact .inr ⟨.notNullViolation tname c,
          by simp [execInsert, hgt, hl, hnn]⟩
      | none =>
        cases huc : uniqueConflict t vals with
        | some g =>
          exact .inr ⟨.uniqueViolation tname g,
            by simp [execInsert, hgt, hl, hnn, huc]⟩
        | none =>
          exact .inl ⟨t, rfl, hl, hnn, huc,
            execInsert_ok_of_checks db tname vals t hgt hl hnn huc⟩
    · exact .inr ⟨.arityMismatch tname,
        by simp [execInsert, hgt, hl]⟩

theorem runInsert_of_execInsert_ok (db : DB) (tname : String)
    (vals : List Val) (db1 : DB)
    (h : execInsert false db tname vals = .ok db1) :
    runInsert db tname vals = ⟨db1, .ok ()⟩ := by
  simp [runInsert, db_connection, h]

theorem runInsert_of_execInsert_err (db : DB) (tname : String)
    (vals : List Val) (e : DBError)
    (h : execInsert false db tname vals = .error e) :
    runInsert db tname vals = ⟨db, .error e⟩ := by
  simp [runInsert, db_connection, h]

theorem runInsert_ok_inv (db : DB) (tname : String) (vals : List Val)
    (h : (runInsert db tname vals).result = .ok ()) :
    ∃ t, getTable db tname = some t ∧
      (runInsert db tname vals).db =
        updateTable db tname ⟨t.schema, t.rows ++ [(newId t, vals)]⟩ := by
  rcases execInsert_cases db tname vals with
    ⟨t, hgt, _, _, _, hok⟩ | ⟨e, herr⟩
  · rw [runInsert_of_execInsert_ok db tname vals _ hok]
    exact ⟨t, hgt, rfl⟩
  · rw [runInsert_of_execInsert_err db tname vals e herr] at h
    cases h

theorem selectAll_eq_rows (db : DB) (tname : String) (t : Table)
    (h : getTable db tname = some t) : selectAll db tname = t.rows := by
  simp [selectAll, h]

theorem assignedId_eq_newId (db : DB) (tname : String) (t : Table)
    (h : getTable db tname = some t) : assignedId db tname = newId t := by
  simp [assignedId, newId, selectAll, h]

theorem insertAll_ids (tname : String) (L : List (List Val)) :
    ∀ (db db' : DB) (t : Table) (n : Nat),
      getTable db tname = some t →
      t.rows.map (·.1) = List.range' 1 n →
      insertAll db tname L = some db' →
      ∃ t', getTable db' tname = some t' ∧
        t'.rows.map (·.1) = List.range' 1 (n + L.length) := by
  induction L with
  | nil =>
    intro db db' t n hgt hids h
    simp only [insertAll] at h
    cases h
    exact ⟨t, hgt, by simpa using hids⟩
  | cons vs rest ih =>
    intro db db' t n hgt hids h
    rcases execInsert_cases db tname vs with
      ⟨t0, hgt0, hl, hnn, huc, hok⟩ | ⟨e, herr⟩
    · have hrun := runInsert_of_execInsert_ok db tname vs _ hok
      rw [hgt] at hgt0
      injection hgt0 with ht
      subst ht
      have hname : t.schema.name = tname :=
        getTable_some_name db tname t hgt
      have hup : getTable
          (updateTable db tname ⟨t.schema, t.rows ++ [(newId t, vs)]⟩)
          tname = some ⟨t.schema, t.rows ++ [(newId t, vs)]⟩ :=
        getTable_updateTable_self db tname _ hname (by rw [hgt]; rfl)
      have hnew : newId t = n + 1 := by
        simp [newId, hids, maxId_range']
      have hids2 :
          (t.rows ++ [(newId t, vs)]).map (·.1) =
            List.range' 1 (n + 1) := by
        rw [List.map_append, hids, hnew, List.range'_concat]
        simp
        omega
      simp only [insertAll] at h
      rw [hrun] at h
      obtain ⟨t', h1, h2⟩ :=
        ih _ db' ⟨t.schema, t.rows ++ [(newId t, vs)]⟩ (n + 1) hup hids2 h
      refine ⟨t', h1, ?_⟩
      rw [h2]
      congr 1
      · simp [List.length_cons]
        omega
    · have hrun := runInsert_of_execInsert_err db tname vs e herr
      simp only [insertAll] at h
      rw [hrun] at h
      simp at h

/-- C1: every decorated insert call is atomic. Either every declared
check of the target table (parameter arity, NOT NULL, UNIQUE; the six
implemented tables declare no FOREIGN KEY) passes and the call commits
exactly one new row carrying a store-assigned id strictly larger than
every existing id, or the call surfaces an error and the store — in
particular the target table — is exactly what it was before the call.
Each of insert_title, insert_genre, insert_format, insert_publisher,
insert_condition and insert_author is runInsert at its table name. -/
theorem insert_atomicity (db : DB) (tname : String) (vals : List Val) :
    (∃ t, getTable db tname = some t ∧
       vals.length = t.schema.cols.length ∧
       findNotNull t.schema.cols vals = none ∧
       uniqueConflict t vals = none ∧
       (t.rows.all fun p => decide (p.1 < newId t)) = true ∧
       runInsert db tname vals =
         ⟨updateTable db tname ⟨t.schema, t.rows ++ [(newId t, vals)]⟩,
          .ok ()⟩)
  ∨ ((∃ e, (runInsert db tname vals).result = .error e) ∧
       (runInsert db tname vals).db = db) := by
  rcases execInsert_cases db tname vals with
    ⟨t, hgt, hl, hnn, huc, hok⟩ | ⟨e, herr⟩
  · left
    refine ⟨t, hgt, hl, hnn, huc, ?_,
      runInsert_of_execInsert_ok db tname vals _ hok⟩
    simp only [List.all_eq_true, decide_eq_true_eq]
    exact fun p hp => lt_newId_of_mem t p hp
  · right
    rw [runInsert_of_execInsert_err db tname vals e herr]
    exact ⟨⟨e, rfl⟩, rfl⟩

/-- C2: the claim says every insert operation turns foreign-key
enforcement on for its own connection, so a dangling reference is
rejected. The code refutes it: db_connection opens a fresh sqlite
connection and never executes PRAGMA foreign_keys = ON, so enforcement
stays at the sqlite default, OFF. Evaluated at the failing input, the
TitleAuthor insert referencing the nonexistent Title id 999 succeeds and
the dangling row is persisted, even though the row violates the declared
FOREIGN KEY constraint (fkRowOk is false) — where the claim, the spec
and the repository tests demand a foreign-key ConstraintViolation and no
persisted row. -/
theorem foreign_keys_never_enabled :
    (insert_titleauthor fkDemoDb [Val.int 999, Val.int 1]).result =
      .ok () ∧
    selectAll (insert_titleauthor fkDemoDb
        [Val.int 999, Val.int 1]).db "TitleAuthor" =
      [(1, [Val.int 999, Val.int 1])] ∧
    fkRowOk fkDemoDb titleauthorSchema.cols
      [Val.int 999, Val.int 1] = false ∧
    (selectAll fkDemoDb "Title").map (·.1) = [] :=
  ⟨rfl, rfl, rfl, rfl⟩

/-- C3: after full schema creation, the column list retrieved for every
entity equals exactly the list declared in spec section 3, in declared
order; in particular Genre has columns ID, Name with no extra GenreID
column, and Location has columns ID, Name, Description with no
self-referential LocationID column. -/
theorem schema_fidelity :
    (∀ e ∈ entityNames,
       get_table_column_names true fullSchemaDb e =
         .ok (specColumns e)) ∧
    get_table_column_names true fullSchemaDb "Genre" =
      .ok ["ID", "Name"] ∧
    get_table_column_names true fullSchemaDb "Location" =
      .ok ["ID", "Name", "Description"] := by
  refine ⟨?_, rfl, rfl⟩
  decide

/-- Witness for C3, at the Genre entity. -/
theorem schema_fidelity_witness :
    get_table_column_names true fullSchemaDb "Genre" =
      .ok (specColumns "Genre") :=
  schema_fidelity.1 "Genre" (by decide)

/-- C4: inserting N rows into a freshly created table, all successfully,
assigns the ids 1, 2, ..., N in insertion order regardless of the
supplied attribute values; the id is computed by the store (newId), the
insert operations take no id argument. -/
theorem autoincrement_ids (db : DB) (tname : String) (t : Table)
    (L : List (List Val)) (db2 : DB)
    (hgt : getTable db tname = some t)
    (hfresh : t.rows = [])
    (hall : insertAll db tname L = some db2) :
    (selectAll db2 tname).map (·.1) = List.range' 1 L.length := by
  obtain ⟨t2, h1, h2⟩ :=
    insertAll_ids tname L db db2 t 0 hgt (by simp [hfresh]) hall
  rw [selectAll_eq_rows db2 tname t2 h1, h2]
  simp

/-- Witness for C4: three inserts into a fresh Genre table persist the
ids 1, 2, 3. -/
theorem autoincrement_ids_witness :
    (selectAll
      [⟨genreSchema, [(1, [Val.text "A"]), (2, [Val.text "B"]),
        (3, [Val.text "C"])]⟩] "Genre").map (·.1) = [1, 2, 3] :=
  (autoincrement_ids genreDb "Genre" ⟨genreSchema, []⟩
    [[Val.text "A"], [Val.text "B"], [Val.text "C"]] _
    rfl rfl rfl).trans (by decide)

/-- C5: for a UNIQUE column or composite g of a table, inserting two
otherwise-valid rows that agree on the values of g succeeds for the
first insert and fails for the second with a unique ConstraintViolation,
leaving exactly the one first row added to the table. -/
theorem unique_enforcement (db : DB) (tname : String) (t : Table)
    (v1 v2 : List Val) (g : List String)
    (hgt : getTable db tname = some t)
    (hl1 : v1.length = t.schema.cols.length)
    (hnn1 : findNotNull t.schema.cols v1 = none)
    (huc1 : uniqueConflict t v1 = none)
    (hl2 : v2.length = t.schema.cols.length)
    (hnn2 : findNotNull t.schema.cols v2 = none)
    (hg : g ∈ t.schema.uniques)
    (hgnn : (g.all fun c => valAt t.schema.cols v2 c != Val.null) = true)
    (hagree : (g.all fun c =>
        valAt t.schema.cols v1 c == valAt t.schema.cols v2 c) = true) :
    (runInsert db tname v1).result = .ok () ∧
    isUniqueViolation
      (runInsert (runInsert db tname v1).db tname v2).result = true ∧
    (runInsert (runInsert db tname v1).db tname v2).db =
      (runInsert db tname v1).db ∧
    selectAll (runInsert db tname v1).db tname =
      selectAll db tname ++ [(assignedId db tname, v1)] := by
  have hok := execInsert_ok_of_checks db tname v1 t hgt hl1 hnn1 huc1
  have hrun1 := runInsert_of_execInsert_ok db tname v1 _ hok
  have hname := getTable_some_name db tname t hgt
  have hdb1 : (runInsert db tname v1).db =
      updateTable db tname ⟨t.schema, t.rows ++ [(newId t, v1)]⟩ := by
    rw [hrun1]
  have hup : getTable (runInsert db tname v1).db tname =
      some ⟨t.schema, t.rows ++ [(newId t, v1)]⟩ := by
    rw [hdb1]
    exact getTable_updateTable_self db tname _ hname (by rw [hgt]; rfl)
  have hconf : (uniqueConflict
      ⟨t.schema, t.rows ++ [(newId t, v1)]⟩ v2).isSome = true := by
    unfold uniqueConflict
    rw [List.find?_isSome]
    refine ⟨g, hg, ?_⟩
    unfold groupConflict
    rw [Bool.and_eq_true]
    refine ⟨hgnn, ?_⟩
    rw [List.any_append, Bool.or_eq_true]
    right
    simpa using hagree
  obtain ⟨g2, hg2⟩ := Option.isSome_iff_exists.mp hconf
  have herr2 := execInsert_unique_err (runInsert db tname v1).db tname v2
    ⟨t.schema, t.rows ++ [(newId t, v1)]⟩ g2 hup hl2 hnn2 hg2
  have hrun2 := runInsert_of_execInsert_err _ tname v2 _ herr2
  refine ⟨by rw [hrun1], ?_, ?_, ?_⟩
  · rw [hrun2]
    rfl
  · rw [hrun2]
  · rw [hdb1, selectAll_eq_rows db tname t hgt,
      assignedId_eq_newId db tname t hgt]
    exact selectAll_eq_rows _ tname
      ⟨t.schema, t.rows ++ [(newId t, v1)]⟩
      (getTable_updateTable_self db tname
        ⟨t.schema, t.rows ++ [(newId t, v1)]⟩ hname (by rw [hgt]; rfl))

/-- Witness for C5: on a fresh Genre table, inserting Fantasy succeeds,
inserting Fantasy again raises a unique ConstraintViolation, and the
table holds exactly one row. -/
theorem unique_enforcement_witness :
    (runInsert genreDb "Genre" [Val.text "Fantasy"]).result = .ok () ∧
    isUniqueViolation
      (runInsert (runInsert genreDb "Genre" [Val.text "Fantasy"]).db
        "Genre" [Val.text "Fantasy"]).result = true ∧
    (runInsert (runInsert genreDb "Genre" [Val.text "Fantasy"]).db
      "Genre" [Val.text "Fantasy"]).db =
      (runInsert genreDb "Genre" [Val.text "Fantasy"]).db ∧
    selectAll (runInsert genreDb "Genre" [Val.text "Fantasy"]).db
      "Genre" = [(1, [Val.text "Fantasy"])] := by
  have h := unique_enforcement genreDb "Genre" ⟨genreSchema, []⟩
    [Val.text "Fantasy"] [Val.text "Fantasy"] ["Name"]
    rfl rfl rfl rfl rfl rfl (by decide) (by decide) (by decide)
  exact ⟨h.1, h.2.1, h.2.2.1, h.2.2.2.trans rfl⟩

/-- C6: a successful insert appends exactly the row made of the assigned
id followed by the supplied values, so a full-table read returns it
verbatim. -/
theorem insert_roundtrip (db : DB) (tname : String) (vals : List Val)
    (hok : (runInsert db tname vals).result = .ok ()) :
    selectAll (runInsert db tname vals).db tname =
      selectAll db tname ++ [(assignedId db tname, vals)] := by
  obtain ⟨t, hgt, hdb⟩ := runInsert_ok_inv db tname vals hok
  have hname := getTable_some_name db tname t hgt
  rw [hdb, selectAll_eq_rows db tname t hgt,
    assignedId_eq_newId db tname t hgt]
  exact selectAll_eq_rows _ tname
    ⟨t.schema, t.rows ++ [(newId t, vals)]⟩
    (getTable_updateTable_self db tname
      ⟨t.schema, t.rows ++ [(newId t, vals)]⟩ hname (by rw [hgt]; rfl))

/-- Witness for C6: after creating the Author table, inserting
(Dr., Jane, Q, Doe, PhD) yields the row (1, Dr., Jane, Q, Doe, PhD) on a
full-table read. -/
theorem insert_roundtrip_witness :
    selectAll (insert_author authorDb
      [Val.text "Dr.", Val.text "Jane", Val.text "Q", Val.text "Doe",
       Val.text "PhD"]).db "Author" =
      [(1, [Val.text "Dr.", Val.text "Jane", Val.text "Q",
        Val.text "Doe", Val.text "PhD"])] :=
  (insert_roundtrip authorDb "Author"
    [Val.text "Dr.", Val.text "Jane", Val.text "Q", Val.text "Doe",
     Val.text "PhD"] rfl).trans rfl

/-- C7: get_valid_record_id returns all primary-key values of the table
in ascending order (a sorted permutation of the stored ids); it fails
with the no-connection error when no cursor exists, and with the
unknown-table error both when the name is not a recognized entity and
when the recognized table is not present in the store. -/
theorem list_valid_ids_spec (hasCursor : Bool) (db : DB)
    (tname : String) :
    (hasCursor = false →
       get_valid_record_id hasCursor db tname =
         .error .noDatabaseConnection) ∧
    (tname ∉ dbDictSchemaKeys →
       get_valid_record_id true db tname = .error .databaseTable) ∧
    (tname ∈ dbDictSchemaKeys →
       tname ∉ db.map (fun t => t.schema.name) →
       get_valid_record_id true db tname = .error .databaseTable) ∧
    (tname ∈ dbDictSchemaKeys →
       tname ∈ db.map (fun t => t.schema.name) →
       get_valid_record_id true db tname =
         .ok (List.insertionSort (· ≤ ·)
           ((selectAll db tname).map (·.1))) ∧
       (List.insertionSort (· ≤ ·)
         ((selectAll db tname).map (·.1))).Sorted (· ≤ ·) ∧
       (List.insertionSort (· ≤ ·)
         ((selectAll db tname).map (·.1))).Perm
           ((selectAll db tname).map (·.1))) := by
  refine ⟨?_, ?_, ?_, ?_⟩
  · intro h
    subst h
    rfl
  · intro h
    simp [get_valid_record_id, validate_cursor, validate_table_name, h]
  · intro h1 h2
    simp [get_valid_record_id, validate_cursor, validate_table_name,
      get_database_table_names, h1, h2]
  · intro h1 h2
    refine ⟨?_, List.sorted_insertionSort _ _,
      List.perm_insertionSort _ _⟩
    simp [get_valid_record_id, validate_cursor, validate_table_name,
      get_database_table_names, h1, h2]

/-- Witness for C7: ids of a Genre table holding two rows come back as
the ascending list, and the two failure modes fire. -/
theorem list_valid_ids_spec_witness :
    get_valid_record_id true
      (insert_genre (insert_genre genreDb [Val.text "A"]).db
        [Val.text "B"]).db "Genre" = .ok [1, 2] ∧
    get_valid_record_id false genreDb "Genre" =
      .error .noDatabaseConnection ∧
    get_valid_record_id true genreDb "Foo" = .error .databaseTable := by
  refine ⟨?_, ?_, ?_⟩
  · exact ((list_valid_ids_spec true
      (insert_genre (insert_genre genreDb [Val.text "A"]).db
        [Val.text "B"]).db "Genre").2.2.2
      (by decide) (by decide)).1.trans rfl
  · exact (list_valid_ids_spec false genreDb "Genre").1 rfl
  · exact (list_valid_ids_spec true genreDb "Foo").2.1 (by decide)

/-- C8: creating a table that already exists surfaces a SchemaConflict
error and leaves the store unchanged; creating a table that does not
exist succeeds and the new empty table is present afterwards. -/
theorem create_table_semantics (db : DB) (ts : TableSchema) :
    ((getTable db ts.name).isSome = true →
       runCreate db ts = ⟨db, .error (.schemaConflict ts.name)⟩) ∧
    (getTable db ts.name = none →
       runCreate db ts = ⟨db ++ [⟨ts, []⟩], .ok ()⟩ ∧
       getTable (db ++ [⟨ts, []⟩]) ts.name = some ⟨ts, []⟩) := by
  constructor
  · intro h
    simp [runCreate, db_connection, execCreateTable, h]
  · intro h
    constructor
    · simp [runCreate, db_connection, execCreateTable, h]
    · rw [getTable_append_singleton db _ ts.name h, getTable_cons]
      simp

/-- Witness for C8: creating Genre on an empty store succeeds; creating
Genre again fails with SchemaConflict and changes nothing. -/
theorem create_table_semantics_witness :
    runCreate [] genreSchema = ⟨[⟨genreSchema, []⟩], .ok ()⟩ ∧
    runCreate genreDb genreSchema =
      ⟨genreDb, .error (.schemaConflict "Genre")⟩ := by
  constructor
  · exact ((create_table_semantics [] genreSchema).2 rfl).1
  · exact (create_table_semantics genreDb genreSchema).1 rfl

/-- C9: an insert call touches only its own entity table: whether the
call succeeds or raises, every table other than the target is unchanged
afterwards. -/
theorem insert_frame (db : DB) (tname : String) (vals : List Val)
    (other : String) (hne : other ≠ tname) :
    getTable (runInsert db tname vals).db other = getTable db other := by
  rcases execInsert_cases db tname vals with
    ⟨t, hgt, _, _, _, hok⟩ | ⟨e, herr⟩
  · rw [runInsert_of_execInsert_ok db tname vals _ hok]
    exact getTable_updateTable_ne db tname other _
      (getTable_some_name db tname t hgt) hne
  · rw [runInsert_of_execInsert_err db tname vals e herr]

/-- Witness for C9: inserting into Genre leaves the Title table exactly
as it was. -/
theorem insert_frame_witness :
    getTable (insert_genre genreTitleDb [Val.text "Fantasy"]).db
      "Title" = getTable genreTitleDb "Title" :=
  insert_frame genreTitleDb "Genre" [Val.text "Fantasy"] "Title"
    (by decide)

/-- C10: get_table_column_names validates the entity name before it ever
needs the cursor, so with no connection a recognized name fails with
NoDatabaseConnectionError while an unrecognized name fails with the
unknown-table error even though no connection exists. -/
theorem list_columns_connection_check (hasCursor : Bool) (db : DB)
    (tname : String) :
    (tname ∉ dbDictSchemaKeys →
       get_table_column_names hasCursor db tname =
         .error .databaseTable) ∧
    (tname ∈ dbDictSchemaKeys →
       get_table_column_names false db tname =
         .error .noDatabaseConnection) := by
  constructor
  · intro h
    simp [get_table_column_names, validate_table_name, h]
  · intro h
    simp [get_table_column_names, validate_table_name,
      get_database_table_names, validate_cursor, h]

/-- Witness for C10: with no cursor, the recognized name Genre raises
the no-connection error and the unrecognized name Foo raises the
unknown-table error. -/
theorem list_columns_connection_check_witness :
    get_table_column_names false genreDb "Genre" =
      .error .noDatabaseConnection ∧
    get_table_column_names false genreDb "Foo" =
      .error .databaseTable := by
  constructor
  · exact (list_columns_connection_check false genreDb "Genre").2
      (by decide)
  · exact (list_columns_connection_check false genreDb "Foo").1
      (by decide)

end BookStack
